import Mathlib

/-!
Verification of the xshopai auth-service core against its specification.

The development shallowly embeds the token engine (src/core/tokenManager.js),
the authorization guard (src/middlewares/auth.middleware.js), the workflow
controllers (auth.controller.js), the event publisher
(dapr.service.client.js) and the startup configuration validator
(configValidator.js).  Times are unix seconds modelled as `Nat`; the
jsonwebtoken library's sign/verify behaviour is embedded directly (an HMAC
signature is modelled by recording the signing secret inside the token:
verification under key `k` succeeds exactly when `k` equals that secret).
-/

namespace AuthService

/-- JWT configuration obtained from the secret/config store and cached for the
process lifetime (`getJwtConfig`): signing secret, issuer, audience and the
default token lifetime in seconds. -/
structure JwtConfig where
  secret : String
  issuer : String
  audience : String
  expiration : Nat
deriving DecidableEq, Repr

/-- Custom claim fields appearing in the service's payloads: the session token
carries `sub`, `email`, `name`, `roles`, `emailVerified`; purpose tokens carry
just `email`, or `id`+`email`+`roles`.  Absent fields are `none`. -/
structure Claims where
  sub : Option String := none
  email : Option String := none
  id : Option String := none
  name : Option String := none
  roles : Option (List String) := none
  emailVerified : Option Bool := none
deriving DecidableEq, Repr

/-- The payload handed to `signToken`: custom claims plus optionally pre-set
registered claims `iss`, `aud`, `iat` (issueJwtToken pre-sets all three;
purpose-token call sites set none of them). -/
structure Payload where
  claims : Claims
  iss : Option String := none
  aud : Option String := none
  iat : Option Nat := none
deriving DecidableEq, Repr

/-- A structurally valid signed JWT: the claims, the registered claims the
signing call produced, and the secret under which it was signed (standing for
the HMAC signature). -/
structure SignedToken where
  claims : Claims
  iss : String
  aud : String
  iat : Nat
  exp : Nat
  secret : String
deriving DecidableEq, Repr

/-- A token presented for verification: either a structurally valid signed
token or a malformed string that does not decode as a JWT at all. -/
inductive Token where
  | signed (s : SignedToken)
  | malformed (raw : String)
deriving DecidableEq, Repr

/-- The decoded payload returned by a successful `jwt.verify`: the custom
claims together with the registered claims. -/
structure Decoded where
  claims : Claims
  iss : String
  aud : String
  iat : Nat
  exp : Nat
deriving DecidableEq, Repr

/-- The distinct errors `jwt.verify` throws, in the order the library checks:
malformed token, invalid signature, expiry (carrying the expiry time), wrong
audience, wrong issuer. -/
inductive JwtError where
  | malformed
  | invalidSignature
  | tokenExpired (expiredAt : Nat)
  | invalidAudience
  | invalidIssuer
deriving DecidableEq, Repr

/-- `jwt.verify(token, secret, {issuer, audience})`: decode, check the
signature, then expiry (`exp <= now` is expired), then audience, then issuer;
throw the corresponding error on the first failure, otherwise return the
decoded payload. -/
def jwtVerify (cfg : JwtConfig) (now : Nat) : Token → Except JwtError Decoded
  | .malformed _ => .error .malformed
  | .signed s =>
    if s.secret ≠ cfg.secret then .error .invalidSignature
    else if s.exp ≤ now then .error (.tokenExpired s.exp)
    else if s.aud ≠ cfg.audience then .error .invalidAudience
    else if s.iss ≠ cfg.issuer then .error .invalidIssuer
    else .ok ⟨s.claims, s.iss, s.aud, s.iat, s.exp⟩

/-- `signToken(payload, expiresIn)` (tokenManager.js lines 11-26): the ttl
falls back to the configured default expiration; issuer and audience are
added only when the payload has not pre-set them; `iat` is the current time
unless the payload pre-set it, and `exp = iat + ttl`; the token is signed
with the configured secret.  Duration strings are modelled in seconds
(15m = 900, 1h = 3600, 1d = 86400). -/
def signToken (cfg : JwtConfig) (p : Payload) (expiresIn : Option Nat) (now : Nat) : Token :=
  let ttl := expiresIn.getD cfg.expiration
  let timestamp := p.iat.getD now
  .signed { claims := p.claims
            iss := p.iss.getD cfg.issuer
            aud := p.aud.getD cfg.audience
            iat := timestamp
            exp := timestamp + ttl
            secret := cfg.secret }

/-- `verifyToken(token)` (tokenManager.js lines 28-38): `jwt.verify` inside a
try/catch that converts every failure, whatever its cause, to `null`. -/
def verifyToken (cfg : JwtConfig) (now : Nat) (t : Token) : Option Decoded :=
  match jwtVerify cfg now t with
  | .ok d => some d
  | .error _ => none

/-- A user record as returned by the user directory's find-by-email
operation: id, stored password hash, profile fields, role list and the two
state flags.  `name` and `roles` may be absent in the directory's answer
(the code guards them with `||` defaults). -/
structure User where
  uid : String
  email : String
  password : String
  firstName : String
  lastName : String
  name : Option String := none
  roles : Option (List String) := none
  isEmailVerified : Bool
  isActive : Bool
deriving DecidableEq, Repr

/-- `issueJwtToken(req, res, user)` (tokenManager.js lines 45-82): builds the
full session payload — `sub` from the user id, issuer/audience/iat pre-set
from configuration and the current time, `email`, `name` (falling back to
first + last name), `roles` (defaulting to `["customer"]`), `emailVerified`
(defaulting to false) — and signs it with the configured default expiration.
The accompanying http-only cookie side effect carries the same token. -/
def issueJwtToken (cfg : JwtConfig) (now : Nat) (user : User) : Token :=
  signToken cfg
    { claims := { sub := some user.uid
                  email := some user.email
                  name := some (user.name.getD (user.firstName ++ " " ++ user.lastName))
                  roles := some (user.roles.getD ["customer"])
                  emailVerified := some user.isEmailVerified }
      iss := some cfg.issuer
      aud := some cfg.audience
      iat := some now }
    none now

/-- Outcome of the login controller: either a terminal error (message and
HTTP status passed to `next(new ErrorResponse(message, status))`) or success
carrying the issued session token. -/
inductive LoginOutcome where
  | err (message : String) (status : Nat)
  | ok (token : Token)
deriving DecidableEq, Repr

/-- `login` (auth.controller.js lines 29-111).  `email?`/`password?` are
`none` when the request field is missing or empty (JS falsiness of the `!email
|| !password` guard); `lookup` is the user directory's find-by-email;
`bcryptCompare plain hash` is the bcrypt comparison.  The checks run in
source order: missing fields 400, unknown user 401 "Invalid credentials",
deactivated 403, unverified email 403, password mismatch 401 with the same
message as the unknown-user case; then the session token is issued. -/
def login (cfg : JwtConfig) (now : Nat) (bcryptCompare : String → String → Bool)
    (email? : Option String) (password? : Option String)
    (lookup : String → Option User) : LoginOutcome :=
  match email?, password? with
  | some email, some password =>
    match lookup email with
    | none => .err "Invalid credentials" 401
    | some user =>
      if user.isActive = false then .err "Account is deactivated" 403
      else if user.isEmailVerified = false then
        .err "Please verify your email before logging in" 403
      else if bcryptCompare password user.password = false then
        .err "Invalid credentials" 401
      else .ok (issueJwtToken cfg now user)
  | _, _ => .err "Email and password are required" 400

/-- How the selected messaging provider behaves on one `publishEvent` call:
it resolves to `true`, resolves to a non-true value, or rejects/throws. -/
inductive ProviderBehavior where
  | succeeds
  | returnsFalse
  | throws (msg : String)
deriving DecidableEq, Repr

/-- The raw provider call `provider.publishEvent(...)` as an exception-typed
computation. -/
def providerPublish : ProviderBehavior → Except String Bool
  | .succeeds => .ok true
  | .returnsFalse => .ok false
  | .throws m => .error m

/-- Record of one publish attempt handed to the provider: the topic and how
the provider behaved. -/
structure PublishAttempt where
  topic : String
  behavior : ProviderBehavior
deriving DecidableEq, Repr

/-- `publishEvent(topicName, eventData)` (dapr.service.client.js lines
62-104): builds the event envelope, calls the provider inside a try/catch
whose catch only logs — it never rethrows ("graceful degradation"), so the
call completes normally whatever the provider does. -/
def publishEvent (b : ProviderBehavior) (topic : String) : Except String PublishAttempt :=
  match providerPublish b with
  | .ok _ => .ok ⟨topic, b⟩
  | .error _ => .ok ⟨topic, b⟩

/-- The event-publishing phase of `register` (auth.controller.js lines
460-501), entered after the directory has committed the new user: a single
try block awaits `publishEvent` on `auth.user.registered` and then on
`auth.email.verification.requested`; its catch logs a warning and lets the
registration continue.  The result lists the attempts that were handed to
the provider, in order. -/
def registerEventPhase (b1 b2 : ProviderBehavior) : Except String (List PublishAttempt) :=
  match publishEvent b1 "auth.user.registered" with
  | .error _ => .ok []
  | .ok a1 =>
    match publishEvent b2 "auth.email.verification.requested" with
    | .error _ => .ok [a1]
    | .ok a2 => .ok [a1, a2]

/-- The tail of `register` after `createUser` succeeded (auth.controller.js
lines 450-525): run the event phase, then respond 201.  Were the event phase
to escape with an exception, the surrounding asyncHandler would turn it into
an error response instead of the 201. -/
def registerAfterCreate (b1 b2 : ProviderBehavior) : List PublishAttempt × Nat :=
  match registerEventPhase b1 b2 with
  | .ok attempts => (attempts, 201)
  | .error _ => ([], 500)

/-- A token minted during a workflow: the payload handed to `signToken` and
the explicit ttl (seconds), if any. -/
structure MintedToken where
  payload : Payload
  expiresIn : Option Nat
deriving DecidableEq, Repr

/-- An update call issued to the user directory during a workflow, with the
bearer token that authenticates it and the body it carries. -/
inductive DirectoryCall where
  | patchEmailVerified (authToken : Token)
  | patchActive (authToken : Token)
  | patchPassword (authToken : Token) (newPassword : String)
  | patchResetPassword (newPassword : String)
deriving DecidableEq, Repr

/-- Observable outcome of one workflow invocation: the HTTP status and
message of the response, plus the side effects in order — tokens minted,
directory update calls issued, publish attempts handed to the provider. -/
structure FlowOutcome where
  status : Nat
  message : String
  minted : List MintedToken
  dirCalls : List DirectoryCall
  published : List PublishAttempt
deriving DecidableEq, Repr

/-- `forgotPassword` (auth.controller.js lines 136-173): missing email 400;
unknown email a terminal 404 "User not found"; otherwise sign a `{email}`
purpose token with ttl 1h (3600 s), publish `auth.password.reset.requested`
inside a try whose catch only logs, and respond 200. -/
def forgotPassword (cfg : JwtConfig) (now : Nat) (email? : Option String)
    (lookup : String → Option User) (pub : ProviderBehavior) : FlowOutcome :=
  match email? with
  | none => ⟨400, "Email is required", [], [], []⟩
  | some email =>
    match lookup email with
    | none => ⟨404, "User not found", [], [], []⟩
    | some _ =>
      let resetPayload : Payload := { claims := { email := some email } }
      let _resetToken := signToken cfg resetPayload (some 3600) now
      let attempts :=
        match publishEvent pub "auth.password.reset.requested" with
        | .ok a => [a]
        | .error _ => []
      ⟨200, "Password reset email sent", [⟨resetPayload, some 3600⟩], [], attempts⟩

/-- `verifyEmail` (auth.controller.js lines 302-341): require the query
token; `verifyToken` failure is a uniform 400 "Invalid or expired token";
resolve the account by the token's `email` claim (404 if absent); if the
account is already verified respond 200 "Email already verified" with no
further side effects; otherwise mint a 15-minute `{id, email, roles}`
internal token and PATCH `isEmailVerified: true` to the directory with it,
responding 200 on success and forwarding the directory's error otherwise.
`lookup` takes the optional email claim (`getUserByEmail(payload.email)`);
`patch` is the directory's answer to the PATCH. -/
def verifyEmail (cfg : JwtConfig) (now : Nat) (token? : Option Token)
    (lookup : Option String → Option User)
    (patch : Except (Nat × String) Unit) : FlowOutcome :=
  match token? with
  | none => ⟨400, "Token is required", [], [], []⟩
  | some token =>
    match verifyToken cfg now token with
    | none => ⟨400, "Invalid or expired token", [], [], []⟩
    | some payload =>
      match lookup payload.claims.email with
      | none => ⟨404, "User not found", [], [], []⟩
      | some user =>
        if user.isEmailVerified then ⟨200, "Email already verified", [], [], []⟩
        else
          let jwtPayload : Payload :=
            { claims := { id := some user.uid, email := some user.email, roles := user.roles } }
          let userJwt := signToken cfg jwtPayload (some 900) now
          match patch with
          | .ok _ =>
            ⟨200, "Email verified successfully", [⟨jwtPayload, some 900⟩],
              [.patchEmailVerified userJwt], []⟩
          | .error (st, msg) =>
            ⟨st, msg, [⟨jwtPayload, some 900⟩], [.patchEmailVerified userJwt], []⟩

/-- `reactivateAccount` (auth.controller.js lines 608-649): structurally the
mirror of `verifyEmail` over the `isActive` flag — uniform 400 on token
failure, 404 on unknown account, idempotent 200 "Account is already active."
with no side effects, else a 15-minute `{id, email, roles}` internal token
and a PATCH of `isActive: true`. -/
def reactivateAccount (cfg : JwtConfig) (now : Nat) (token? : Option Token)
    (lookup : Option String → Option User)
    (patch : Except (Nat × String) Unit) : FlowOutcome :=
  match token? with
  | none => ⟨400, "Token is required", [], [], []⟩
  | some token =>
    match verifyToken cfg now token with
    | none => ⟨400, "Invalid or expired token", [], [], []⟩
    | some payload =>
      match lookup payload.claims.email with
      | none => ⟨404, "User not found", [], [], []⟩
      | some user =>
        if user.isActive then ⟨200, "Account is already active.", [], [], []⟩
        else
          let jwtPayload : Payload :=
            { claims := { id := some user.uid, email := some user.email, roles := user.roles } }
          let userJwt := signToken cfg jwtPayload (some 900) now
          match patch with
          | .ok _ =>
            ⟨200, "Account reactivated successfully.", [⟨jwtPayload, some 900⟩],
              [.patchActive userJwt], []⟩
          | .error (st, msg) =>
            ⟨st, msg, [⟨jwtPayload, some 900⟩], [.patchActive userJwt], []⟩

/-- Modelled from the spec: `authValidator.validatePasswordChange` lives in
`src/validators/auth.validator.js`, which is not among the provided sources.
Per the spec ("Changing a password requires the new password differ from the
old one; submitting identical old/new values is rejected before any upstream
call is made"), it rejects when either field is missing or when the new
password equals the old one. -/
def validatePasswordChange (old? new? : Option String) : Bool :=
  match old?, new? with
  | some o, some n => o ≠ n
  | _, _ => false

/-- `changePassword` (auth.controller.js lines 233-295): 401 without an
authenticated user id; 400 when `validatePasswordChange` rejects (identical
or missing passwords) — before any upstream call; 400 when the new password
fails the strength validator; 401 without a bearer/cookie JWT; otherwise a
PATCH of the new password to the directory authenticated with that JWT,
forwarding the directory's status.  `strengthOk` abstracts
`authValidator.isValidPassword` (also not among the provided sources); the
error messages of the two modelled validators are representative. -/
def changePassword (userId? : Option String) (old? new? : Option String)
    (strengthOk : String → Bool) (jwt? : Option Token)
    (patch : Except (Nat × String) Unit) : FlowOutcome :=
  match userId? with
  | none => ⟨401, "Unauthorized", [], [], []⟩
  | some _ =>
    if validatePasswordChange old? new? = false then
      ⟨400, "New password must be different from the old password", [], [], []⟩
    else
      match old?, new? with
      | some _, some n =>
        if strengthOk n = false then
          ⟨400, "Password does not meet requirements", [], [], []⟩
        else
          match jwt? with
          | none => ⟨401, "JWT missing", [], [], []⟩
          | some t =>
            match patch with
            | .ok _ => ⟨200, "Password changed successfully", [], [.patchPassword t n], []⟩
            | .error (st, msg) => ⟨st, msg, [], [.patchPassword t n], []⟩
      | _, _ => ⟨400, "New password must be different from the old password", [], [], []⟩

/-- JS falsiness of an optional string: absent or empty. -/
def optFalsy : Option String → Bool
  | none => true
  | some s => s = ""

/-- The failure the authorization guard hands to `next(...)`: its own 401
`ErrorResponse` when no token was found, the original library error when
`jwt.verify` threw, or the generic `Error("Invalid token structure")` thrown
by the standard-claims check. -/
inductive AuthFailure where
  | noToken
  | jwtError (e : JwtError)
  | invalidStructure
deriving DecidableEq, Repr

/-- The identity the guard attaches to `req.user`. -/
structure ReqUser where
  id : String
  email : Option String
  name : Option String
  roles : List String
  emailVerified : Bool
deriving DecidableEq, Repr

/-- Result of running the guard on a request. -/
inductive AuthOutcome where
  | success (u : ReqUser)
  | failure (f : AuthFailure)
deriving DecidableEq, Repr

/-- `authMiddleware` (auth.middleware.js lines 22-68): take the token from
the `Authorization: Bearer` header, falling back to the `token` cookie; with
no token, fail with the guard's own 401 `ErrorResponse`.  Otherwise run
`jwt.verify` with the configured secret, issuer and audience; a thrown
library error is forwarded unchanged to the centralized error layer.  A
decoded payload with falsy `sub`, `iss` or `aud` raises the structure error;
otherwise the identity is attached with `roles` defaulting to `[]` and
`emailVerified` to `false`. -/
def authMiddleware (cfg : JwtConfig) (now : Nat)
    (headerToken : Option Token) (cookieToken : Option Token) : AuthOutcome :=
  match headerToken <|> cookieToken with
  | none => .failure .noToken
  | some t =>
    match jwtVerify cfg now t with
    | .error e => .failure (.jwtError e)
    | .ok d =>
      if optFalsy d.claims.sub ∨ d.iss = "" ∨ d.aud = "" then .failure .invalidStructure
      else
        .success { id := d.claims.sub.getD ""
                   email := d.claims.email
                   name := d.claims.name
                   roles := d.claims.roles.getD []
                   emailVerified := d.claims.emailVerified.getD false }

/-- Modelled from the spec: the centralized error-handling middleware is not
among the provided sources (auth.middleware.js line 65 says "The errorHandler
middleware will handle TokenExpiredError, JsonWebTokenError, etc.").  Per
spec sections 4.8, 7 and end-to-end scenario 4, it converts each forwarded
failure to a `{statusCode, error}` envelope, mapping a `TokenExpiredError`
to a 401 whose message indicates expiry, other JWT library errors to a
generic 401 invalid-token message, a plain thrown `Error` to a 500, and an
`ErrorResponse` to its own status and message. -/
def errorLayer : AuthFailure → Nat × String
  | .noToken => (401, "Not authorized to access this route")
  | .jwtError (.tokenExpired _) => (401, "Token expired")
  | .jwtError _ => (401, "Invalid token")
  | .invalidStructure => (500, "Invalid token structure")

/-- Lower-casing a string, written over its character list so that it is
kernel-computable. -/
def jsToLower (s : String) : String := ⟨s.data.map Char.toLower⟩

/-- The numeric value of a digit list. -/
def natOfDigits (cs : List Char) : Nat :=
  cs.foldl (fun acc c => acc * 10 + (c.toNat - 48)) 0

/-- `parseInt(s, 10)` of JavaScript: skip leading whitespace, read an
optional sign and then the longest digit prefix; NaN (here `none`) when no
digit follows. -/
def jsParseInt (s : String) : Option Int :=
  let t := s.data.dropWhile Char.isWhitespace
  let (sign, rest) :=
    match t with
    | c :: cs =>
      if c = Char.ofNat 45 then ((-1 : Int), cs)
      else if c = Char.ofNat 43 then ((1 : Int), cs)
      else ((1 : Int), t)
    | [] => ((1 : Int), t)
  let digits := rest.takeWhile Char.isDigit
  if digits.isEmpty then none else some (sign * natOfDigits digits)

/-- The prefix test of `/^\d+\.\d+\.\d+/` used for `VERSION`. -/
def semverPrefix (s : String) : Bool :=
  let cs := s.data
  let d1 := cs.takeWhile Char.isDigit
  if d1.isEmpty then false else
  match cs.drop d1.length with
  | c1 :: t1 =>
    if c1 ≠ Char.ofNat 46 then false else
    let d2 := t1.takeWhile Char.isDigit
    if d2.isEmpty then false else
    match t1.drop d2.length with
    | c2 :: t2 =>
      if c2 ≠ Char.ofNat 46 then false else
      ¬ (t2.takeWhile Char.isDigit).isEmpty
    | [] => false
  | [] => false

/-- One entry of `validationRules` (configValidator.js lines 13-85): the
environment key, whether it is required, its validator on a truthy value,
and whether a default is installed when unset. -/
structure ConfigRule where
  key : String
  required : Bool
  validator : String → Bool
  errorMessage : String
deriving Inhabited

/-- The rule table of configValidator.js.  Each validator is applied only to
a truthy (set, non-empty) value, exactly as in the source where
`value && rule.validator && !rule.validator(value)` guards the call. -/
def validationRules : List ConfigRule :=
  [ { key := "NODE_ENV", required := true
      validator := fun s => jsToLower s = "development" ∨ jsToLower s = "production" ∨ jsToLower s = "test"
      errorMessage := "NODE_ENV must be one of: development, production, test" },
    { key := "PORT", required := true
      validator := fun s =>
        match jsParseInt s with
        | some n => 0 < n ∧ n ≤ 65535
        | none => false
      errorMessage := "PORT must be a valid port number (1-65535)" },
    { key := "SERVICE_NAME", required := true
      validator := fun s => 0 < s.length
      errorMessage := "SERVICE_NAME must be a non-empty string" },
    { key := "VERSION", required := true
      validator := semverPrefix
      errorMessage := "VERSION must be in semantic version format (e.g., 1.0.0)" },
    { key := "JWT_SECRET", required := false
      validator := fun s => s = "" ∨ 32 ≤ s.length
      errorMessage := "JWT_SECRET must be at least 32 characters long if provided" },
    { key := "DAPR_USER_SERVICE_APP_ID", required := false
      validator := fun s => s = "" ∨ 0 < s.length
      errorMessage := "DAPR_USER_SERVICE_APP_ID must be a non-empty string if provided" },
    { key := "LOG_LEVEL", required := false
      validator := fun s => jsToLower s ∈ ["error", "warn", "info", "http", "verbose", "debug", "silly"]
      errorMessage := "LOG_LEVEL must be one of: error, warn, info, http, verbose, debug, silly" },
    { key := "LOG_FORMAT", required := false
      validator := fun s => s = "" ∨ jsToLower s = "json" ∨ jsToLower s = "console"
      errorMessage := "LOG_FORMAT must be either json or console" },
    { key := "LOG_TO_CONSOLE", required := false
      validator := fun s => jsToLower s = "true" ∨ jsToLower s = "false"
      errorMessage := "LOG_TO_CONSOLE must be true or false" },
    { key := "LOG_TO_FILE", required := false
      validator := fun s => jsToLower s = "true" ∨ jsToLower s = "false"
      errorMessage := "LOG_TO_FILE must be true or false" },
    { key := "LOG_FILE_PATH", required := false
      validator := fun s => s = "" ∨ (0 < s.length ∧ s.data.contains (Char.ofNat 46))
      errorMessage := "LOG_FILE_PATH must be a valid file path with extension" } ]

/-- The error lines one rule contributes in the validation loop
(configValidator.js lines 98-125): a missing required value contributes the
"required but not set" line; a set-but-falsy value contributes nothing (the
default/warning path); a truthy value failing its validator contributes the
rule's error message followed by the truncated "Current value" line. -/
def ruleErrors (env : String → Option String) (r : ConfigRule) : List String :=
  let value := env r.key
  if r.required ∧ optFalsy value then ["[ERROR] " ++ r.key ++ " is required but not set"]
  else if optFalsy value then []
  else
    match value with
    | some v =>
      if r.validator v then []
      else
        ["[ERROR] " ++ r.key ++ ": " ++ r.errorMessage,
         "   Current value: " ++ (if 100 < v.length then (⟨v.data.take 100⟩ : String) ++ "..." else v)]
    | none => []

/-- All error lines accumulated over the rule table. -/
def configErrors (env : String → Option String) : List String :=
  (validationRules.map (ruleErrors env)).flatten

/-- `validateConfig` (configValidator.js lines 91-142): collect the errors
over all rules and throw when any exist, else return normally. -/
def validateConfig (env : String → Option String) : Except String Unit :=
  let errors := configErrors env
  if errors.isEmpty then .ok ()
  else .error ("Configuration validation failed with " ++ toString errors.length ++ " error(s)")

/-- A sample configuration used by the concrete witnesses. -/
def cfg0 : JwtConfig :=
  { secret := "0123456789abcdef0123456789abcdef", issuer := "auth-service",
    audience := "xshopai", expiration := 3600 }

/-- A sample active, verified user used by the concrete witnesses. -/
def user0 : User :=
  { uid := "u1", email := "a@x.com", password := "hash", firstName := "A",
    lastName := "B", roles := some ["customer"], isEmailVerified := true, isActive := true }

/-- An environment whose signing secret is present but empty, all other
required variables valid. -/
def envEmptySecret : String → Option String := fun k =>
  if k = "NODE_ENV" then some "development"
  else if k = "PORT" then some "3000"
  else if k = "SERVICE_NAME" then some "auth-service"
  else if k = "VERSION" then some "1.0.0"
  else if k = "JWT_SECRET" then some ""
  else none

/-- A sample user with an unverified email. -/
def user1 : User :=
  { uid := "u2", email := "a@x.com", password := "hash", firstName := "A",
    lastName := "B", roles := some ["customer"], isEmailVerified := false, isActive := true }

/-- A sample deactivated user. -/
def user2 : User :=
  { uid := "u3", email := "a@x.com", password := "hash", firstName := "A",
    lastName := "B", roles := some ["customer"], isEmailVerified := true, isActive := false }

/-! ## Shared helper lemmas -/

/-- A token signed by `signToken` with no pre-set registered claims verifies,
before its expiry, to the original custom claims together with the configured
issuer and audience. -/
theorem verifyToken_signToken_valid (cfg : JwtConfig) (p : Payload) (ttl now now' : Nat)
    (hiss : p.iss = none) (haud : p.aud = none) (hiat : p.iat = none)
    (h : now' < now + ttl) :
    verifyToken cfg now' (signToken cfg p (some ttl) now) =
      some ⟨p.claims, cfg.issuer, cfg.audience, now, now + ttl⟩ := by
  simp [verifyToken, signToken, jwtVerify, hiss, haud, hiat, Nat.not_le.mpr h]

/-- Once the ttl has elapsed, the same token verifies to `null`. -/
theorem verifyToken_signToken_expired (cfg : JwtConfig) (p : Payload) (ttl now now' : Nat)
    (hiss : p.iss = none) (haud : p.aud = none) (hiat : p.iat = none)
    (h : now + ttl ≤ now') :
    verifyToken cfg now' (signToken cfg p (some ttl) now) = none := by
  simp [verifyToken, signToken, jwtVerify, hiss, haud, hiat, h]

/-- `publishEvent` completes normally for every provider behaviour: its
internal catch absorbs a throwing provider. -/
theorem publishEvent_never_throws (b : ProviderBehavior) (topic : String) :
    publishEvent b topic = .ok ⟨topic, b⟩ := by
  cases b <;> rfl

/-! ## Claims -/

/-- C1: for every claims payload (with no pre-set registered claims) and
every ttl, verifying a token produced by `sign(claims, ttl)` under the same
configured secret, issuer and audience returns the original claims as long
as the current time is before issued-at + ttl; once the ttl has elapsed,
verify returns the invalid (null) result. -/
theorem token_roundtrip (cfg : JwtConfig) (p : Payload) (ttl now now' : Nat)
    (hiss : p.iss = none) (haud : p.aud = none) (hiat : p.iat = none) :
    (now' < now + ttl →
      verifyToken cfg now' (signToken cfg p (some ttl) now) =
        some ⟨p.claims, cfg.issuer, cfg.audience, now, now + ttl⟩) ∧
    (now + ttl ≤ now' →
      verifyToken cfg now' (signToken cfg p (some ttl) now) = none) :=
  ⟨verifyToken_signToken_valid cfg p ttl now now' hiss haud hiat,
   verifyToken_signToken_expired cfg p ttl now now' hiss haud hiat⟩

/-- C1 witness: a concrete `{email}` payload signed with ttl 3600 at time 0
round-trips at time 3599 and is invalid at time 3600. -/
theorem token_roundtrip_witness :
    (verifyToken cfg0 3599 (signToken cfg0 { claims := { email := some "a@x.com" } } (some 3600) 0) =
      some ⟨{ email := some "a@x.com" }, "auth-service", "xshopai", 0, 3600⟩) ∧
    (verifyToken cfg0 3600 (signToken cfg0 { claims := { email := some "a@x.com" } } (some 3600) 0) =
      none) :=
  ⟨(token_roundtrip cfg0 { claims := { email := some "a@x.com" } } 3600 0 3599
      rfl rfl rfl).1 (by decide),
   (token_roundtrip cfg0 { claims := { email := some "a@x.com" } } 3600 0 3600
      rfl rfl rfl).2 (by decide)⟩

/-- C3: `verifyToken` never throws — it is a total function — and for every
failure cause (malformed token, wrong secret, wrong issuer, wrong audience,
expiry) it returns the same `null` result, so no cause is observable. -/
theorem verifyToken_uniform_failure (cfg : JwtConfig) (now : Nat) :
    (∀ t e, jwtVerify cfg now t = .error e → verifyToken cfg now t = none) ∧
    (∀ raw, verifyToken cfg now (.malformed raw) = none) ∧
    (∀ s, s.secret ≠ cfg.secret → verifyToken cfg now (.signed s) = none) ∧
    (∀ s, s.iss ≠ cfg.issuer → verifyToken cfg now (.signed s) = none) ∧
    (∀ s, s.aud ≠ cfg.audience → verifyToken cfg now (.signed s) = none) ∧
    (∀ s, s.exp ≤ now → verifyToken cfg now (.signed s) = none) := by
  refine ⟨fun t e h => by simp [verifyToken, h], fun raw => rfl, ?_, ?_, ?_, ?_⟩
  · intro s h
    simp [verifyToken, jwtVerify, h]
  · intro s h
    by_cases h1 : s.secret = cfg.secret
    · by_cases h2 : s.exp ≤ now
      · simp [verifyToken, jwtVerify, h1, h2]
      · by_cases h3 : s.aud = cfg.audience
        · simp [verifyToken, jwtVerify, h1, h2, h3, h]
        · simp [verifyToken, jwtVerify, h1, h2, h3]
    · simp [verifyToken, jwtVerify, h1]
  · intro s h
    by_cases h1 : s.secret = cfg.secret
    · by_cases h2 : s.exp ≤ now
      · simp [verifyToken, jwtVerify, h1, h2]
      · simp [verifyToken, jwtVerify, h1, h2, h]
    · simp [verifyToken, jwtVerify, h1]
  · intro s h
    by_cases h1 : s.secret = cfg.secret
    · simp [verifyToken, jwtVerify, h1, h]
    · simp [verifyToken, jwtVerify, h1]

/-- C3 witness: a token signed under a different secret verifies to `null`. -/
theorem verifyToken_uniform_failure_witness :
    verifyToken cfg0 0
      (.signed { claims := {}, iss := "auth-service", aud := "xshopai",
                 iat := 0, exp := 100, secret := "other-secret" }) = none :=
  (verifyToken_uniform_failure cfg0 0).2.2.1 _ (by decide)

/-- C2: the login eligibility checks short-circuit in source order — unknown
account 401 "Invalid credentials", deactivated account 403 "Account is
deactivated", unverified email 403 "Please verify your email before logging
in", password mismatch 401 "Invalid credentials" — and the unknown-email and
wrong-password outcomes are literally identical (non-enumeration). -/
theorem login_eligibility_order (cfg : JwtConfig) (now : Nat)
    (bc : String → String → Bool) (email password : String)
    (lookup : String → Option User) :
    (lookup email = none →
      login cfg now bc (some email) (some password) lookup = .err "Invalid credentials" 401) ∧
    (∀ u, lookup email = some u → u.isActive = false →
      login cfg now bc (some email) (some password) lookup = .err "Account is deactivated" 403) ∧
    (∀ u, lookup email = some u → u.isActive = true → u.isEmailVerified = false →
      login cfg now bc (some email) (some password) lookup =
        .err "Please verify your email before logging in" 403) ∧
    (∀ u, lookup email = some u → u.isActive = true → u.isEmailVerified = true →
      bc password u.password = false →
      login cfg now bc (some email) (some password) lookup = .err "Invalid credentials" 401) ∧
    (∀ u (bc2 : String → String → Bool) (email2 password2 : String)
        (lookup2 : String → Option User),
      lookup email = none →
      lookup2 email2 = some u → u.isActive = true → u.isEmailVerified = true →
      bc2 password2 u.password = false →
      login cfg now bc (some email) (some password) lookup =
        login cfg now bc2 (some email2) (some password2) lookup2) := by
  refine ⟨fun h => by simp [login, h],
          fun u hu ha => by simp [login, hu, ha],
          fun u hu ha hv => by simp [login, hu, ha, hv],
          fun u hu ha hv hp => by simp [login, hu, ha, hv, hp],
          fun u bc2 email2 password2 lookup2 h hu ha hv hp => ?_⟩
  simp [login, h, hu, ha, hv, hp]

/-- C2 witness: with a concrete user, the unknown-email outcome and the
wrong-password outcome are both 401 "Invalid credentials". -/
theorem login_eligibility_order_witness :
    login cfg0 0 (fun _ _ => false) (some "a@x.com") (some "pw") (fun _ => none) =
      .err "Invalid credentials" 401 ∧
    login cfg0 0 (fun _ _ => false) (some "a@x.com") (some "pw") (fun _ => some user0) =
      .err "Invalid credentials" 401 :=
  ⟨(login_eligibility_order cfg0 0 (fun _ _ => false) "a@x.com" "pw" (fun _ => none)).1 rfl,
   (login_eligibility_order cfg0 0 (fun _ _ => false) "a@x.com" "pw"
      (fun _ => some user0)).2.2.2.1 user0 rfl rfl rfl rfl⟩

/-- C4: after the directory commit, registration hands exactly two events to
the provider, `auth.user.registered` then
`auth.email.verification.requested`, and responds 201, for every provider
behaviour on either publish — a failing publish neither blocks the other
attempt nor changes the outcome. -/
theorem register_publishes_both_events (b1 b2 : ProviderBehavior) :
    registerAfterCreate b1 b2 =
      ([⟨"auth.user.registered", b1⟩, ⟨"auth.email.verification.requested", b2⟩], 201) := by
  cases b1 <;> cases b2 <;> rfl

/-- C5: the authorization guard forwards the library's expiry error
unchanged, so the error layer can answer 401 with an expiry-indicating
message, distinct from both the missing-token and the malformed-token
responses; missing and malformed tokens produce their own distinct
failures. -/
theorem authMiddleware_preserves_expiry (cfg : JwtConfig) (now : Nat) (s : SignedToken)
    (cookie : Option Token) (hsec : s.secret = cfg.secret) (hexp : s.exp ≤ now) :
    authMiddleware cfg now (some (.signed s)) cookie =
      .failure (.jwtError (.tokenExpired s.exp)) ∧
    errorLayer (.jwtError (.tokenExpired s.exp)) = (401, "Token expired") ∧
    (∀ e, errorLayer (.jwtError (.tokenExpired e)) ≠ errorLayer .noToken) ∧
    (∀ e, errorLayer (.jwtError (.tokenExpired e)) ≠ errorLayer (.jwtError .malformed)) ∧
    authMiddleware cfg now none none = .failure .noToken ∧
    (∀ raw, authMiddleware cfg now (some (.malformed raw)) cookie =
      .failure (.jwtError .malformed)) := by
  refine ⟨?_, rfl, fun e => by simp [errorLayer], fun e => by simp [errorLayer], rfl,
          fun raw => rfl⟩
  simp [authMiddleware, jwtVerify, hsec, hexp]

/-- C5 witness: a concrete session token expired at time 3600, presented at
time 4000, is reported as a `TokenExpiredError` and answered with 401
"Token expired". -/
theorem authMiddleware_preserves_expiry_witness :
    authMiddleware cfg0 4000
      (some (.signed { claims := { sub := some "u1" }, iss := "auth-service",
                       aud := "xshopai", iat := 0, exp := 3600,
                       secret := "0123456789abcdef0123456789abcdef" })) none =
      .failure (.jwtError (.tokenExpired 3600)) ∧
    errorLayer (.jwtError (.tokenExpired 3600)) = (401, "Token expired") :=
  ⟨(authMiddleware_preserves_expiry cfg0 4000
      { claims := { sub := some "u1" }, iss := "auth-service", aud := "xshopai",
        iat := 0, exp := 3600, secret := "0123456789abcdef0123456789abcdef" }
      none rfl (by decide)).1,
   (authMiddleware_preserves_expiry cfg0 4000
      { claims := { sub := some "u1" }, iss := "auth-service", aud := "xshopai",
        iat := 0, exp := 3600, secret := "0123456789abcdef0123456789abcdef" }
      none rfl (by decide)).2.1⟩

/-- C6 counterexample: the claim as stated fails — with `JWT_SECRET` present
but set to the empty string (length 0, shorter than 32),
`validateConfig` accepts the configuration, because the validation loop
skips every falsy value. -/
theorem validateConfig_empty_secret_accepted :
    envEmptySecret "JWT_SECRET" = some "" ∧ "".length < 32 ∧
    validateConfig envEmptySecret = .ok () :=
  ⟨rfl, by decide, by rfl⟩

/-- C6 (amended): if the configured signing secret is present, non-empty and
shorter than 32 characters, `validateConfig` reports an error and throws, so
startup fails before the process serves. -/
theorem validateConfig_short_secret_rejected (env : String → Option String) (s : String)
    (hset : env "JWT_SECRET" = some s) (hne : s ≠ "") (hlen : s.length < 32) :
    ∃ msg, validateConfig env = .error msg := by
  have hmem : "[ERROR] JWT_SECRET: JWT_SECRET must be at least 32 characters long if provided" ∈
      configErrors env := by
    unfold configErrors validationRules
    simp only [List.map_cons, List.map_nil, List.flatten_cons, List.flatten_nil]
    apply List.mem_append_right
    apply List.mem_append_right
    apply List.mem_append_right
    apply List.mem_append_right
    apply List.mem_append_left
    unfold ruleErrors
    rw [hset]
    simp [optFalsy, hne, Nat.not_le.mpr hlen]
  have herr : ¬ (configErrors env).isEmpty := by
    simp [List.isEmpty_iff]
    exact List.ne_nil_of_mem hmem
  unfold validateConfig
  rw [if_neg (by simpa using herr)]
  exact ⟨_, rfl⟩

/-- C6 witness: a concrete 11-character secret is rejected at startup. -/
theorem validateConfig_short_secret_rejected_witness :
    ∃ msg, validateConfig (fun k => if k = "JWT_SECRET" then some "shortsecret" else none) =
      .error msg :=
  validateConfig_short_secret_rejected
    (fun k => if k = "JWT_SECRET" then some "shortsecret" else none)
    "shortsecret" rfl (by decide) (by decide)

/-- C7: the email-verification commit is idempotent — for an account whose
`isEmailVerified` flag is already true, any valid token resolving to that
account yields the 200 "Email already verified" response with no internal
token minted and no directory update issued. -/
theorem verifyEmail_idempotent (cfg : JwtConfig) (now : Nat) (t : Token)
    (lookup : Option String → Option User) (patch : Except (Nat × String) Unit)
    (d : Decoded) (u : User)
    (hver : verifyToken cfg now t = some d)
    (hlook : lookup d.claims.email = some u)
    (hverified : u.isEmailVerified = true) :
    verifyEmail cfg now (some t) lookup patch =
      ⟨200, "Email already verified", [], [], []⟩ := by
  simp [verifyEmail, hver, hlook, hverified]

/-- C7 witness: a concrete valid token for an already-verified account is
answered idempotently, with empty minted-token and directory-call lists. -/
theorem verifyEmail_idempotent_witness :
    verifyEmail cfg0 10
      (some (signToken cfg0 { claims := { email := some "a@x.com" } } (some 86400) 0))
      (fun e => if e = some "a@x.com" then some user0 else none) (.ok ()) =
      ⟨200, "Email already verified", [], [], []⟩ :=
  verifyEmail_idempotent cfg0 10
    (signToken cfg0 { claims := { email := some "a@x.com" } } (some 86400) 0)
    (fun e => if e = some "a@x.com" then some user0 else none) (.ok ())
    ⟨{ email := some "a@x.com" }, "auth-service", "xshopai", 0, 86400⟩ user0
    (by rfl) (by rfl) (by rfl)

/-- C8: the password-reset request phase reveals non-existence — an unknown
email terminates with 404 "User not found" and nothing is minted or
published — while a known email yields 200 with exactly one 1-hour `{email}`
purpose token minted and one `auth.password.reset.requested` publish
attempt. -/
theorem forgotPassword_reveals_absence (cfg : JwtConfig) (now : Nat) (email : String)
    (lookup : String → Option User) (pub : ProviderBehavior) :
    (lookup email = none →
      forgotPassword cfg now (some email) lookup pub =
        ⟨404, "User not found", [], [], []⟩) ∧
    (∀ u, lookup email = some u →
      forgotPassword cfg now (some email) lookup pub =
        ⟨200, "Password reset email sent",
          [⟨{ claims := { email := some email } }, some 3600⟩], [],
          [⟨"auth.password.reset.requested", pub⟩]⟩) := by
  constructor
  · intro h
    simp [forgotPassword, h]
  · intro u hu
    simp [forgotPassword, hu, publishEvent_never_throws]

/-- C8 witness: an unknown email gets 404 with no side effects; a known one
gets 200 with the 1-hour reset token minted and the reset event attempted. -/
theorem forgotPassword_reveals_absence_witness :
    forgotPassword cfg0 0 (some "nobody@x.com") (fun _ => none) .succeeds =
      ⟨404, "User not found", [], [], []⟩ ∧
    forgotPassword cfg0 0 (some "a@x.com") (fun _ => some user0) .succeeds =
      ⟨200, "Password reset email sent",
        [⟨{ claims := { email := some "a@x.com" } }, some 3600⟩], [],
        [⟨"auth.password.reset.requested", .succeeds⟩]⟩ :=
  ⟨(forgotPassword_reveals_absence cfg0 0 "nobody@x.com" (fun _ => none) .succeeds).1 rfl,
   (forgotPassword_reveals_absence cfg0 0 "a@x.com" (fun _ => some user0) .succeeds).2
     user0 rfl⟩

/-- C9: an authenticated change-password request whose new password equals
the old one terminates with a 400 before any upstream call — the directory
call list of the outcome is empty. -/
theorem changePassword_same_password_rejected (userId p : String)
    (strengthOk : String → Bool) (jwt? : Option Token)
    (patch : Except (Nat × String) Unit) :
    changePassword (some userId) (some p) (some p) strengthOk jwt? patch =
      ⟨400, "New password must be different from the old password", [], [], []⟩ ∧
    (changePassword (some userId) (some p) (some p) strengthOk jwt? patch).dirCalls = [] := by
  constructor
  · simp [changePassword, validatePasswordChange]
  · simp [changePassword, validatePasswordChange]

/-- C10: purpose tokens are not bound to their purpose.  The exact `{email}`
token the password-reset request phase mints (ttl 1h) is, while unexpired,
also accepted by the email-verification commit — which proceeds to PATCH
`isEmailVerified` — and by the account-reactivation commit — which proceeds
to PATCH `isActive` — and the verification commit's outcome on it is
identical to its outcome on a genuine 24-hour verification token for the
same email, since verification checks only signature, issuer, audience and
expiry and these handlers read only the `email` claim. -/
theorem purpose_tokens_not_purpose_bound (cfg : JwtConfig) (email : String) (now now' : Nat)
    (lookupV lookupR : Option String → Option User) (u v : User)
    (hnow : now' < now + 3600)
    (hlookV : lookupV (some email) = some u) (hunverified : u.isEmailVerified = false)
    (hlookR : lookupR (some email) = some v) (hinactive : v.isActive = false) :
    (verifyEmail cfg now'
        (some (signToken cfg { claims := { email := some email } } (some 3600) now))
        lookupV (.ok ()) =
      ⟨200, "Email verified successfully",
        [⟨{ claims := { id := some u.uid, email := some u.email, roles := u.roles } }, some 900⟩],
        [.patchEmailVerified (signToken cfg
          { claims := { id := some u.uid, email := some u.email, roles := u.roles } }
          (some 900) now')], []⟩) ∧
    (reactivateAccount cfg now'
        (some (signToken cfg { claims := { email := some email } } (some 3600) now))
        lookupR (.ok ()) =
      ⟨200, "Account reactivated successfully.",
        [⟨{ claims := { id := some v.uid, email := some v.email, roles := v.roles } }, some 900⟩],
        [.patchActive (signToken cfg
          { claims := { id := some v.uid, email := some v.email, roles := v.roles } }
          (some 900) now')], []⟩) ∧
    verifyEmail cfg now'
        (some (signToken cfg { claims := { email := some email } } (some 3600) now))
        lookupV (.ok ()) =
      verifyEmail cfg now'
        (some (signToken cfg { claims := { email := some email } } (some 86400) now))
        lookupV (.ok ()) := by
  have hver1 : verifyToken cfg now'
      (signToken cfg { claims := { email := some email } } (some 3600) now) =
      some ⟨{ email := some email }, cfg.issuer, cfg.audience, now, now + 3600⟩ :=
    verifyToken_signToken_valid cfg _ 3600 now now' rfl rfl rfl hnow
  have hver2 : verifyToken cfg now'
      (signToken cfg { claims := { email := some email } } (some 86400) now) =
      some ⟨{ email := some email }, cfg.issuer, cfg.audience, now, now + 86400⟩ :=
    verifyToken_signToken_valid cfg _ 86400 now now' rfl rfl rfl (by omega)
  refine ⟨?_, ?_, ?_⟩
  · simp [verifyEmail, hver1, hlookV, hunverified]
  · simp [reactivateAccount, hver1, hlookR, hinactive]
  · simp [verifyEmail, hver1, hver2, hlookV, hunverified]

/-- C10 witness: the concrete 1-hour reset token for `a@x.com`, presented at
time 10, drives both the email-verification commit and the account
reactivation commit to their directory PATCH. -/
theorem purpose_tokens_not_purpose_bound_witness :
    verifyEmail cfg0 10
        (some (signToken cfg0 { claims := { email := some "a@x.com" } } (some 3600) 0))
        (fun _ => some user1) (.ok ()) =
      ⟨200, "Email verified successfully",
        [⟨{ claims := { id := some "u2", email := some "a@x.com",
                        roles := some ["customer"] } }, some 900⟩],
        [.patchEmailVerified (signToken cfg0
          { claims := { id := some "u2", email := some "a@x.com",
                        roles := some ["customer"] } } (some 900) 10)], []⟩ ∧
    reactivateAccount cfg0 10
        (some (signToken cfg0 { claims := { email := some "a@x.com" } } (some 3600) 0))
        (fun _ => some user2) (.ok ()) =
      ⟨200, "Account reactivated successfully.",
        [⟨{ claims := { id := some "u3", email := some "a@x.com",
                        roles := some ["customer"] } }, some 900⟩],
        [.patchActive (signToken cfg0
          { claims := { id := some "u3", email := some "a@x.com",
                        roles := some ["customer"] } } (some 900) 10)], []⟩ :=
  ⟨(purpose_tokens_not_purpose_bound cfg0 "a@x.com" 0 10 (fun _ => some user1)
      (fun _ => some user2) user1 user2 (by decide) rfl rfl rfl rfl).1,
   (purpose_tokens_not_purpose_bound cfg0 "a@x.com" 0 10 (fun _ => some user1)
      (fun _ => some user2) user1 user2 (by decide) rfl rfl rfl rfl).2.1⟩

end AuthService
